import Mathlib

/-!
Verification of the scoring/ranking engine of `college_app_assistant.py`
(college comparison fit scoring and the major-suggestion quiz accumulator).

The Python source is shallowly embedded: pandas column arithmetic becomes
per-row rational arithmetic mapped over a list of rows; the Python dict
used by the quiz accumulator becomes an insertion-ordered association list;
Python's stable `sorted` becomes `List.mergeSort`; `pandas.sort_values`
(default quicksort, not guaranteed stable) is modelled relationally as
"some permutation that is pairwise descending".
-/

namespace CollegeApp

/-- The row type of `colleges.csv` as built in `create_sample_colleges`
(source lines 305-316). Monetary and score fields are ints/floats in the
source; all are embedded as `ℚ`. -/
structure College where
  name : String
  tuition : ℚ
  sat_avg : ℚ
  acceptance_rate : ℚ
  location : String
  size : String
deriving DecidableEq

/-- The sample data written by `create_sample_colleges` (source lines 307-313). -/
def sampleColleges : List College :=
  [ ⟨"State University", 25000, 1250, 65/100, "CA", "Large"⟩,
    ⟨"Tech Institute", 45000, 1450, 25/100, "MA", "Medium"⟩,
    ⟨"Liberal Arts College", 35000, 1350, 45/100, "NY", "Small"⟩,
    ⟨"Community College", 8000, 1050, 90/100, "TX", "Medium"⟩,
    ⟨"Elite University", 55000, 1520, 15/100, "CT", "Large"⟩ ]

/-- Python's `str.upper()` (all location strings in the data are ASCII),
written as a structural map over the characters so the kernel can
evaluate it. -/
def pyUpper (s : String) : String :=
  ⟨s.data.map Char.toUpper⟩

/-- Source line 335: `df['sat_diff'] = abs(df['sat_avg'] - sat_score)`. -/
def sat_diff (c : College) (sat_score : ℚ) : ℚ :=
  |c.sat_avg - sat_score|

/-- Source line 336: `df['fit_score'] += (300 - df['sat_diff']) / 300 * 40`.
Note the source has no clamping of negative values. -/
def satContribution (c : College) (sat_score : ℚ) : ℚ :=
  (300 - sat_diff c sat_score) / 300 * 40

/-- Source line 339: `df['budget_fit'] = df['tuition'] <= budget`. -/
def budget_fit (c : College) (budget : ℚ) : Bool :=
  c.tuition ≤ budget

/-- Source line 340: `df['fit_score'] += df['budget_fit'] * 30`
(`True` coerces to 1, `False` to 0). -/
def budgetContribution (c : College) (budget : ℚ) : ℚ :=
  (if budget_fit c budget then 1 else 0) * 30

/-- Source line 343: `df['fit_score'] += df['acceptance_rate'] * 30`. -/
def rateContribution (c : College) : ℚ :=
  c.acceptance_rate * 30

/-- Source lines 332-343: `df['fit_score']` starts at 0 and accumulates the
three criterion contributions. -/
def fit_score (c : College) (sat_score budget : ℚ) : ℚ :=
  0 + satContribution c sat_score + budgetContribution c budget + rateContribution c

/-- The score columns computed over the whole frame (source lines 331-343):
each row is paired with its fit score. -/
def scoreColleges (cs : List College) (sat_score budget : ℚ) : List (College × ℚ) :=
  cs.map (fun c => (c, fit_score c sat_score budget))

/-- Source lines 346-347: `if location.upper() != 'ANY': df = df[df['location'] == location.upper()]`,
applied after the score columns exist. -/
def applyLocationFilter (loc : String) (rows : List (College × ℚ)) : List (College × ℚ) :=
  if pyUpper loc ≠ "ANY" then rows.filter (fun r => r.1.location = pyUpper loc) else rows

/-- The scored-and-filtered frame just before the sort at source line 350. -/
def scoredFiltered (cs : List College) (sat_score budget : ℚ) (loc : String) :
    List (College × ℚ) :=
  applyLocationFilter loc (scoreColleges cs sat_score budget)

/-- Source line 350: `df = df.sort_values('fit_score', ascending=False)`.
Pandas' default sort kind (quicksort) is documented as not stable, so the
result is modelled relationally: any permutation of the scored, filtered
rows whose scores are pairwise descending is a possible output. -/
def IsCompareOutput (cs : List College) (sat_score budget : ℚ) (loc : String)
    (out : List (College × ℚ)) : Prop :=
  (scoredFiltered cs sat_score budget loc).Perm out ∧
    out.Pairwise (fun a b => b.2 ≤ a.2)

/-- Source line 356: `df.head(5)` — the displayed ranking is the first five
rows of the sorted frame. -/
def topFive (out : List (College × ℚ)) : List (College × ℚ) :=
  out.take 5

/-- The Tech Institute row of the sample data (source line 309). -/
def techInstitute : College :=
  ⟨"Tech Institute", 45000, 1450, 25/100, "MA", "Medium"⟩

/-- The alternative pipeline the spec recommends (spec §4.2): apply the hard
location filter to the raw candidate rows first, then compute the score
columns. -/
def filterThenScore (cs : List College) (sat_score budget : ℚ) (loc : String) :
    List (College × ℚ) :=
  scoreColleges
    (if pyUpper loc ≠ "ANY" then cs.filter (fun c => c.location = pyUpper loc) else cs)
    sat_score budget

/-- The Community College row of the sample data (source line 311). -/
def communityCollege : College :=
  ⟨"Community College", 8000, 1050, 90/100, "TX", "Medium"⟩

/-- The distance criterion as the spec words it (spec §4.1): contribution =
`criterion_max * max(0, (reference_range - |candidate_value - target_value|) / reference_range)`,
with negative results clamped to 0. Stated only to compare against the
source's `satContribution`, which has no clamp. -/
def specClampedDistance (range cmax cand target : ℚ) : ℚ :=
  cmax * max 0 ((range - |cand - target|) / range)

/-- Stability of the ranked output relative to the scored frame: any two
rows with equal scores appear in the output in the order they had in the
frame. This is the tie-break property the spec asserts. -/
def TiesInInputOrder (l out : List (College × ℚ)) : Prop :=
  ∀ a b : College × ℚ, List.Sublist [a, b] l → a.2 = b.2 → List.Sublist [a, b] out

/-- Two colleges with identical numeric attributes and different names,
used to exercise score ties. -/
def twinA : College := ⟨"Twin A", 25000, 1250, 65/100, "CA", "Large"⟩

/-- The second of the two tied colleges. -/
def twinB : College := ⟨"Twin B", 25000, 1250, 65/100, "CA", "Large"⟩

/-- The quiz accumulator update for one (category, weight) pair
(source line 731): `major_scores[major] = major_scores.get(major, 0) + weight`.
Python dicts preserve insertion order, so the model is an association list
where an existing key is updated in place and a new key is appended. -/
def dictAdd : List (String × Nat) → String → Nat → List (String × Nat)
  | [], k, v => [(k, v)]
  | (k', v') :: rest, k, v =>
    if k' = k then (k', v' + v) :: rest else (k', v') :: dictAdd rest k v

/-- Source lines 730-731: add every (major, weight) pair of the chosen
option to the running scores. -/
def addWeights (scores : List (String × Nat)) (w : List (String × Nat)) :
    List (String × Nat) :=
  w.foldl (fun acc p => dictAdd acc p.1 p.2) scores

/-- The weight tables of the three quiz questions (source lines 671-706),
indexed by question number and by option (a=0, b=1, c=2, d=3). -/
def quizWeights : Fin 3 → Fin 4 → List (String × Nat)
  | 0, 0 => [("Engineering", 3), ("Math", 3), ("Computer Science", 2)]
  | 0, 1 => [("Psychology", 3), ("Social Work", 3), ("Business", 2)]
  | 0, 2 => [("Art", 3), ("English", 2), ("Communications", 2)]
  | 0, 3 => [("Biology", 3), ("Chemistry", 3), ("Physics", 2)]
  | 1, 0 => [("Chemistry", 3), ("Biology", 2), ("Physics", 3)]
  | 1, 1 => [("Business", 3), ("Marketing", 2), ("Management", 2)]
  | 1, 2 => [("Art", 3), ("Environmental Science", 2), ("Architecture", 2)]
  | 1, 3 => [("Nursing", 3), ("Medicine", 3), ("Psychology", 1)]
  | 2, 0 => [("Engineering", 2), ("Math", 3), ("Computer Science", 2), ("Physics", 2)]
  | 2, 1 => [("History", 3), ("Political Science", 2), ("Sociology", 2)]
  | 2, 2 => [("English", 3), ("Communications", 2), ("Journalism", 2)]
  | 2, 3 => [("Art", 3), ("Music", 3), ("Theater", 2)]

/-- The comparison Python's `sorted(..., key=lambda x: x[1], reverse=True)`
sorts by: scores descending (non-strict, so ties are allowed). -/
def scoreGE (a b : String × Nat) : Prop := b.2 ≤ a.2

instance : DecidableRel scoreGE := fun a b => Nat.decLe b.2 a.2

instance : IsTotal (String × Nat) scoreGE := ⟨fun a b => Nat.le_total b.2 a.2⟩

instance : IsTrans (String × Nat) scoreGE :=
  ⟨fun _ _ _ hab hbc => le_trans hbc hab⟩

/-- Source line 734: `sorted(major_scores.items(), key=lambda x: x[1], reverse=True)`.
Python's `sorted` is a stable sort by the key, descending under
`reverse=True`; `insertionSort scoreGE` is exactly such a stable sort. -/
def sortedByScoreDesc (s : List (String × Nat)) : List (String × Nat) :=
  s.insertionSort scoreGE

/-- Source line 734, the final `[:3]`: the top-3 leaderboard slice. -/
def top_majors (s : List (String × Nat)) : List (String × Nat) :=
  (sortedByScoreDesc s).take 3

/-- Source lines 715-731: a complete run of the three-question quiz with
one valid selection per question (the input loop at lines 722-726 only
exits on a key in {a,b,c,d}, embedded as `Fin 4`). -/
def runQuiz (a1 a2 a3 : Fin 4) : List (String × Nat) :=
  addWeights (addWeights (addWeights [] (quizWeights 0 a1)) (quizWeights 1 a2))
    (quizWeights 2 a3)

/-- The quiz's displayed recommendations (source lines 733-734). -/
def takeQuizTop (a1 a2 a3 : Fin 4) : List (String × Nat) :=
  top_majors (runQuiz a1 a2 a3)

end CollegeApp

namespace CollegeApp

/-- The SAT contribution written as an affine function of the distance. -/
theorem satContribution_eq (c : College) (s : ℚ) :
    satContribution c s = 40 - (2/15) * sat_diff c s := by
  unfold satContribution
  ring

/-- C1 (counterexample): with candidate sat_avg 1050 (the sample Community
College row) and user sat_score 1600, the SAT-distance contribution is
-100/3 < 0, so the per-criterion contribution is not within [0, 40]. -/
theorem C1_counterexample :
    satContribution communityCollege 1600 = -100/3 ∧
    ¬ (0 ≤ satContribution communityCollege 1600) := by
  constructor
  · simp [satContribution, sat_diff, communityCollege]
    norm_num
  · simp [satContribution, sat_diff, communityCollege]
    norm_num

/-- C1 (amended): every per-criterion contribution is at most its
criterion_max; the threshold contribution lies in [0, 30]; the rate
contribution lies in [0, 30] whenever the stored rate lies in [0, 1]; but
the SAT-distance contribution is negative exactly when the SAT distance
exceeds 300, so the lower clamp claimed by the spec does not hold. -/
theorem C1_amended (c : College) (sat budget : ℚ)
    (h0 : 0 ≤ c.acceptance_rate) (h1 : c.acceptance_rate ≤ 1) :
    satContribution c sat ≤ 40 ∧
    (0 ≤ budgetContribution c budget ∧ budgetContribution c budget ≤ 30) ∧
    (0 ≤ rateContribution c ∧ rateContribution c ≤ 30) ∧
    (satContribution c sat < 0 ↔ 300 < sat_diff c sat) := by
  have hd : 0 ≤ sat_diff c sat := abs_nonneg _
  have he := satContribution_eq c sat
  refine ⟨by linarith, ?_, ?_, ?_⟩
  · unfold budgetContribution
    split <;> norm_num
  · unfold rateContribution
    constructor <;> nlinarith
  · constructor <;> intro h <;> linarith

/-- C1 (witness): the amended bounds instantiated at the sample Tech
Institute row with target SAT 1450 and budget 50000. -/
theorem C1_amended_witness :
    satContribution techInstitute 1450 ≤ 40 ∧
    (0 ≤ budgetContribution techInstitute 50000 ∧
      budgetContribution techInstitute 50000 ≤ 30) ∧
    (0 ≤ rateContribution techInstitute ∧ rateContribution techInstitute ≤ 30) ∧
    (satContribution techInstitute 1450 < 0 ↔ 300 < sat_diff techInstitute 1450) :=
  C1_amended techInstitute 1450 50000 (by norm_num [techInstitute])
    (by norm_num [techInstitute])

/-- C2 (counterexample): at distance 600 (sample Community College row,
user sat_score 1650) the code computes -40, while the spec's clamped
formula gives 0 — the contribution is not `max(0, ...)`-clamped and is not
0 beyond the reference range. -/
theorem C2_counterexample :
    satContribution communityCollege 1650 = -40 ∧
    specClampedDistance 300 40 1050 1650 = 0 ∧
    satContribution communityCollege 1650 ≠
      specClampedDistance 300 40 (communityCollege.sat_avg) 1650 := by
  refine ⟨?_, ?_, ?_⟩ <;>
    simp [satContribution, sat_diff, communityCollege, specClampedDistance] <;>
    norm_num

/-- C2 (amended): the SAT-distance contribution is
`40 * (300 - d) / 300` with no clamping: it is monotonically non-increasing
in the distance d, equals 0 exactly at d = 300, and is strictly negative
(not 0) beyond the reference range. -/
theorem C2_amended (c c' : College) (sat : ℚ)
    (h : sat_diff c sat ≤ sat_diff c' sat) :
    satContribution c' sat ≤ satContribution c sat ∧
    (sat_diff c sat = 300 → satContribution c sat = 0) ∧
    (300 < sat_diff c sat → satContribution c sat < 0) := by
  have he := satContribution_eq c sat
  have he' := satContribution_eq c' sat
  refine ⟨by linarith, ?_, ?_⟩ <;> intro hm <;> rw [he] <;> linarith

/-- C2 (witness): monotonicity instantiated with the sample Tech Institute
(distance 0) and Community College (distance 400) rows at user SAT 1450. -/
theorem C2_amended_witness :
    satContribution communityCollege 1450 ≤ satContribution techInstitute 1450 ∧
    (sat_diff techInstitute 1450 = 300 → satContribution techInstitute 1450 = 0) ∧
    (300 < sat_diff techInstitute 1450 → satContribution techInstitute 1450 < 0) :=
  C2_amended techInstitute communityCollege 1450
    (by norm_num [sat_diff, techInstitute, communityCollege])

/-- C3: on candidate {score_avg:1450, tuition:45000, rate:0.25} with target
{score:1450, budget:50000}, the engine computes distance contribution 40,
threshold contribution 30, rate contribution 7.5, and aggregate 77.5. -/
theorem C3_concrete_bounded_scenario :
    satContribution techInstitute 1450 = 40 ∧
    budgetContribution techInstitute 50000 = 30 ∧
    rateContribution techInstitute = 15/2 ∧
    fit_score techInstitute 1450 50000 = 155/2 := by
  refine ⟨?_, ?_, ?_, ?_⟩ <;>
    simp [satContribution, budgetContribution, rateContribution, fit_score,
      sat_diff, budget_fit, techInstitute] <;> norm_num

/-- C8: the affordability criterion is strictly binary — its contribution is
30 exactly when tuition is at most the budget and 0 otherwise, never an
intermediate value. -/
theorem C8_threshold_binary (c : College) (budget : ℚ) :
    (budgetContribution c budget = 30 ∨ budgetContribution c budget = 0) ∧
    (budgetContribution c budget = 30 ↔ c.tuition ≤ budget) ∧
    (budgetContribution c budget = 0 ↔ ¬ c.tuition ≤ budget) := by
  unfold budgetContribution budget_fit
  by_cases h : c.tuition ≤ budget <;> simp [h]

/-- C7: filtering before scoring and filtering after scoring (as the code
does) produce the same scored row list, hence exactly the same possible
ranked outputs: scoring is row-local. -/
theorem C7_filter_commutes (cs : List College) (sat_score budget : ℚ) (loc : String) :
    scoredFiltered cs sat_score budget loc = filterThenScore cs sat_score budget loc ∧
    (∀ out, IsCompareOutput cs sat_score budget loc out ↔
      (filterThenScore cs sat_score budget loc).Perm out ∧
        out.Pairwise (fun a b => b.2 ≤ a.2)) := by
  have key : scoredFiltered cs sat_score budget loc =
      filterThenScore cs sat_score budget loc := by
    unfold scoredFiltered filterThenScore applyLocationFilter scoreColleges
    split
    · rw [List.filter_map]
      rfl
    · rfl
  exact ⟨key, fun out => by rw [IsCompareOutput, key]⟩

/-- C9: an empty candidate set, and a location filter that excludes every
candidate, both yield an empty ranked list (no error). -/
theorem C9_empty_result (sat_score budget : ℚ) (loc : String)
    (cs : List College) (out : List (College × ℚ))
    (hempty : scoredFiltered cs sat_score budget loc = [])
    (hout : IsCompareOutput cs sat_score budget loc out) :
    scoredFiltered [] sat_score budget loc = [] ∧ out = [] ∧ topFive out = [] := by
  refine ⟨?_, ?_, ?_⟩
  · unfold scoredFiltered applyLocationFilter scoreColleges
    split <;> rfl
  · have h := hout.1
    rw [hempty] at h
    exact h.symm.eq_nil
  · have h := hout.1
    rw [hempty] at h
    rw [h.symm.eq_nil]
    rfl

/-- C9 (witness): the sample colleges with preferred location "ZZ" (which
matches no row) produce the empty ranked list. -/
theorem C9_empty_result_witness :
    scoredFiltered [] 1450 50000 "ZZ" = [] ∧ ([] : List (College × ℚ)) = [] ∧
      topFive [] = [] :=
  C9_empty_result 1450 50000 "ZZ" sampleColleges [] (by decide)
    ⟨by rw [show scoredFiltered sampleColleges 1450 50000 "ZZ" = [] from by decide], by simp⟩

/-- C4 (counterexample): two candidates with identical attributes tie at
the same fit score; the bounded-mode sort (pandas default quicksort, not
guaranteed stable) admits the output with the two tied rows swapped, which
violates the claimed input-order tie-break. -/
theorem C4_counterexample :
    IsCompareOutput [twinA, twinB] 1250 30000 "Any"
      [(twinB, fit_score twinB 1250 30000), (twinA, fit_score twinA 1250 30000)] ∧
    ¬ TiesInInputOrder (scoredFiltered [twinA, twinB] 1250 30000 "Any")
      [(twinB, fit_score twinB 1250 30000), (twinA, fit_score twinA 1250 30000)] := by
  have hs : fit_score twinA 1250 30000 = fit_score twinB 1250 30000 := rfl
  have hf : scoredFiltered [twinA, twinB] 1250 30000 "Any" =
      [(twinA, fit_score twinA 1250 30000), (twinB, fit_score twinB 1250 30000)] := rfl
  refine ⟨⟨?_, ?_⟩, ?_⟩
  · rw [hf]
    exact List.Perm.swap _ _ _
  · refine List.pairwise_cons.mpr ⟨?_, List.pairwise_singleton _ _⟩
    intro b hb
    simp only [List.mem_singleton] at hb
    subst hb
    exact le_of_eq rfl
  · intro h
    have hsub := h (twinA, fit_score twinA 1250 30000) (twinB, fit_score twinB 1250 30000)
      (by rw [hf]) hs
    have heq := List.Sublist.eq_of_length hsub rfl
    simp only [List.cons.injEq, Prod.mk.injEq] at heq
    have hname : twinA = twinB := heq.1.1
    have : "Twin A" = "Twin B" := congrArg College.name hname
    exact absurd this (by decide)

/-- C4 (amended): every possible bounded-mode output is sorted by score
descending, and the quiz-mode sort (Python's stable `sorted`) additionally
orders its output descending while keeping any pair that was ranked
`scoreGE` in the accumulator — in particular tied entries — in their
first-touched order. In bounded mode the tie-break is NOT guaranteed stable,
because pandas' default sort kind is quicksort. -/
theorem C4_amended (cs : List College) (sat_score budget : ℚ) (loc : String)
    (out : List (College × ℚ)) (h : IsCompareOutput cs sat_score budget loc out)
    (s : List (String × Nat)) :
    out.Pairwise (fun a b => b.2 ≤ a.2) ∧
    (sortedByScoreDesc s).Perm s ∧
    List.Sorted scoreGE (sortedByScoreDesc s) ∧
    (∀ a b : String × Nat, List.Sublist [a, b] s → b.2 ≤ a.2 →
      List.Sublist [a, b] (sortedByScoreDesc s)) := by
  refine ⟨h.2, List.perm_insertionSort scoreGE s, List.sorted_insertionSort scoreGE s, ?_⟩
  intro a b hsub hle
  exact List.pair_sublist_insertionSort hle hsub

/-- C4 (witness): the amended statement instantiated at a one-candidate
comparison and a one-entry leaderboard. -/
theorem C4_amended_witness :
    (scoredFiltered [techInstitute] 1450 50000 "Any").Pairwise
      (fun a b : College × ℚ => b.2 ≤ a.2) ∧
    (sortedByScoreDesc [("Engineering", 5)]).Perm [("Engineering", 5)] ∧
    List.Sorted scoreGE (sortedByScoreDesc [("Engineering", 5)]) ∧
    (∀ a b : String × Nat, List.Sublist [a, b] [("Engineering", 5)] → b.2 ≤ a.2 →
      List.Sublist [a, b] (sortedByScoreDesc [("Engineering", 5)])) :=
  C4_amended [techInstitute] 1450 50000 "Any" _
    ⟨List.Perm.refl _, by
      rw [show scoredFiltered [techInstitute] 1450 50000 "Any" =
        [(techInstitute, fit_score techInstitute 1450 50000)] from rfl]
      exact List.pairwise_singleton _ _⟩
    [("Engineering", 5)]

/-- C5: top-K selection returns exactly min(K, number of filtered
candidates) results — `head(5)` on any possible ranked comparison output,
and `[:3]` on the sorted quiz leaderboard. -/
theorem C5_topk (cs : List College) (sat_score budget : ℚ) (loc : String)
    (out : List (College × ℚ)) (h : IsCompareOutput cs sat_score budget loc out)
    (s : List (String × Nat)) :
    (topFive out).length = min 5 (scoredFiltered cs sat_score budget loc).length ∧
    (top_majors s).length = min 3 s.length := by
  constructor
  · rw [topFive, List.length_take, h.1.length_eq]
  · rw [top_majors, sortedByScoreDesc, List.length_take, List.length_insertionSort]

/-- C5 (witness): the top-K law instantiated at a one-candidate comparison
(1 = min 5 1 result) and a one-entry leaderboard (1 = min 3 1 results). -/
theorem C5_topk_witness :
    (topFive (scoredFiltered [techInstitute] 1450 50000 "Any")).length =
      min 5 (scoredFiltered [techInstitute] 1450 50000 "Any").length ∧
    (top_majors [("Engineering", 5)]).length = min 3 ([("Engineering", 5)] : List (String × Nat)).length :=
  C5_topk [techInstitute] 1450 50000 "Any" _
    ⟨List.Perm.refl _, by
      rw [show scoredFiltered [techInstitute] 1450 50000 "Any" =
        [(techInstitute, fit_score techInstitute 1450 50000)] from rfl]
      exact List.pairwise_singleton _ _⟩
    [("Engineering", 5)]

/-- C6: selections contributing {Engineering:3, Math:3} and then
{Engineering:2, Business:3} leave the accumulator at
{Engineering:5, Math:3, Business:3} in first-touched order, and its top-2
is [Engineering(5), Math(3)] — Math before Business because the stable
sort keeps tied entries in first-touched order. -/
theorem C6_accumulator_scenario :
    addWeights (addWeights [] [("Engineering", 3), ("Math", 3)])
      [("Engineering", 2), ("Business", 3)] =
      [("Engineering", 5), ("Math", 3), ("Business", 3)] ∧
    (sortedByScoreDesc [("Engineering", 5), ("Math", 3), ("Business", 3)]).take 2 =
      [("Engineering", 5), ("Math", 3)] := by
  decide

/-- C10: every complete run of the three-question quiz yields exactly 3
recommendations, each with a positive integer score; every option's weight
table touches at least 3 distinct categories with positive weights, so the
accumulator already holds at least 3 entries after the first selection. -/
theorem C10_quiz_three_recommendations :
    (∀ a1 a2 a3 : Fin 4, (takeQuizTop a1 a2 a3).length = 3 ∧
      ∀ p ∈ takeQuizTop a1 a2 a3, 0 < p.2) ∧
    (∀ (i : Fin 3) (o : Fin 4), 3 ≤ (quizWeights i o).length ∧
      (quizWeights i o).Pairwise (fun p q => p.1 ≠ q.1) ∧
      ∀ p ∈ quizWeights i o, 0 < p.2) ∧
    (∀ o : Fin 4, 3 ≤ (addWeights [] (quizWeights 0 o)).length) := by
  decide

end CollegeApp
